import Mathlib

/-!
Verification of a single-node Chord DHT participant (`node.py`):
identity derivation (SHA-1 of "ip:port"), ring state, the join protocol,
`find_successor` routing, the request dispatcher, and the local key-value
store.  Networking (`send_request`) is modelled as a pure function
parameter; Python exceptions (AttributeError on `None.encode()`, KeyError
on a missing subscript, TypeError on comparing `None` with an int) are
modelled with `Except`.
-/

set_option maxRecDepth 4000

/-- A Python-level exception that escapes a request handler. -/
inductive PyErr where
  | attributeError
  | typeError
  | keyError
deriving DecidableEq, Repr

/-- `{node_id, ip, port}` descriptor exchanged verbatim between peers. -/
structure NodeDescriptor where
  node_id : Nat
  ip : String
  port : Nat
deriving DecidableEq, Repr

/-- The predecessor record written by `update_predecessor`; its `node_id`
comes from `request.get("node_id")` and may be absent (`None`). -/
structure PredEntry where
  node_id : Option Nat
  ip : String
  port : Nat
deriving DecidableEq, Repr

/-- A decoded JSON request.  Fields read with `.get` are `Option`s
(`none` models an absent field / `None`). -/
structure Request where
  command : Option String := none
  key : Option String := none
  value : Option String := none
  node_id : Option Nat := none
  ip : Option String := none
  port : Option Nat := none
deriving DecidableEq, Repr

/-- A decoded JSON response.  `value` is `Option (Option String)`:
the outer layer models field absence, the inner one a JSON `null`. -/
structure Response where
  status : String
  message : Option String := none
  value : Option (Option String) := none
  successor : Option NodeDescriptor := none
deriving DecidableEq, Repr

/-- The outcome of `send_request` to a peer, abstracted as a pure
function of destination ip, destination port and the request. -/
abbrev SendFn : Type := String → Nat → Request → Response

/-- Mutable per-node state: identity, local store, and the ring pointers.
`successor = none` models the Python attribute never having been set. -/
structure NodeState where
  node_id : Nat
  ip : String
  port : Nat
  data_store : List (Nat × Option String)
  predecessor : Option PredEntry
  successor : Option NodeDescriptor
deriving DecidableEq, Repr

/-- Python `str(x)` for an optional string: `None` prints as `"None"`. -/
def optStr : Option String → String
  | none => "None"
  | some s => s

/-! ## SHA-1 over byte lists (bytes and 32-bit words as `Nat`) -/

/-- Truncate to a 32-bit word. -/
def w32 (x : Nat) : Nat := x % 4294967296

/-- Left-rotate a 32-bit word by `s` bits (for `0 < s < 32`, `x < 2^32`). -/
def rotl (s x : Nat) : Nat := w32 (x <<< s) ||| (x >>> (32 - s))

/-- Round function of SHA-1 (`f_i` in FIPS 180): choice, parity, majority. -/
def sha1F (i b c d : Nat) : Nat :=
  if i < 20 then (b &&& c) ||| ((b ^^^ 0xFFFFFFFF) &&& d)
  else if i < 40 then b ^^^ c ^^^ d
  else if i < 60 then (b &&& c) ||| (b &&& d) ||| (c &&& d)
  else b ^^^ c ^^^ d

/-- Round constant of SHA-1 (`K_i` in FIPS 180). -/
def sha1K (i : Nat) : Nat :=
  if i < 20 then 0x5A827999
  else if i < 40 then 0x6ED9EBA1
  else if i < 60 then 0x8F1BBCDC
  else 0xCA62C1D6

/-- The five-word running digest of SHA-1. -/
structure SHA1State where
  a : Nat
  b : Nat
  c : Nat
  d : Nat
  e : Nat
deriving DecidableEq, Repr

/-- One of the 80 SHA-1 rounds, consuming `(i, w_i)`. -/
def sha1Round (st : SHA1State) (iw : Nat × Nat) : SHA1State :=
  let temp := w32 (rotl 5 st.a + sha1F iw.1 st.b st.c st.d + st.e + sha1K iw.1 + iw.2)
  { a := temp, b := st.a, c := rotl 30 st.b, d := st.c, e := st.d }

/-- Big-endian 32-bit words from a byte list (4 bytes per word). -/
def wordsOf : List Nat → List Nat
  | b0 :: b1 :: b2 :: b3 :: rest =>
    (b0 <<< 24 + b1 <<< 16 + b2 <<< 8 + b3) :: wordsOf rest
  | _ => []

/-- Extend the 16-word schedule by `k` more words
(`w_i = rotl 1 (w_{i-3} xor w_{i-8} xor w_{i-14} xor w_{i-16})`). -/
def extendSchedule : Nat → List Nat → List Nat
  | 0, w => w
  | k + 1, w =>
    let n := w.length
    let wi := rotl 1 ((w.getD (n - 3) 0) ^^^ (w.getD (n - 8) 0) ^^^
                      (w.getD (n - 14) 0) ^^^ (w.getD (n - 16) 0))
    extendSchedule k (w ++ [wi])

/-- Compress one 64-byte block into the running digest. -/
def processBlock (h : SHA1State) (block : List Nat) : SHA1State :=
  let w := extendSchedule 64 (wordsOf block)
  let st := (List.zip (List.range 80) w).foldl sha1Round h
  { a := w32 (h.a + st.a), b := w32 (h.b + st.b), c := w32 (h.c + st.c),
    d := w32 (h.d + st.d), e := w32 (h.e + st.e) }

/-- Fold `processBlock` over the first `fuel` 64-byte blocks of `msg`. -/
def sha1Loop : Nat → SHA1State → List Nat → SHA1State
  | 0, h, _ => h
  | k + 1, h, msg => sha1Loop k (processBlock h (msg.take 64)) (msg.drop 64)

/-- The `n` bytes of `x` in big-endian order. -/
def lenBytes : Nat → Nat → List Nat
  | 0, _ => []
  | k + 1, x => ((x >>> (8 * k)) % 256) :: lenBytes k x

/-- Merkle–Damgård padding of SHA-1: append `0x80`, zero bytes up to
56 mod 64, then the bit length as 8 big-endian bytes. -/
def padMessage (msg : List Nat) : List Nat :=
  msg ++ 0x80 :: (List.replicate ((119 - msg.length % 64) % 64) 0 ++ lenBytes 8 (msg.length * 8))

/-- The initial digest words of SHA-1. -/
def sha1Init : SHA1State :=
  { a := 0x67452301, b := 0xEFCDAB89, c := 0x98BADCFE, d := 0x10325476, e := 0xC3D2E1F0 }

/-- SHA-1 digest of a byte list, as its five 32-bit words. -/
def sha1Digest (msg : List Nat) : SHA1State :=
  let padded := padMessage msg
  sha1Loop (padded.length / 64) sha1Init padded

/-- SHA-1 digest of a byte list, read as a big-endian 160-bit integer
(what Python's `int(hashlib.sha1(m).hexdigest(), 16)` yields). -/
def sha1 (msg : List Nat) : Nat :=
  let h := sha1Digest msg
  h.a * 2 ^ 128 + h.b * 2 ^ 96 + h.c * 2 ^ 64 + h.d * 2 ^ 32 + h.e

/-- UTF-8 encoding of one character as a byte list (Python `str.encode`). -/
def utf8Char (c : Char) : List Nat :=
  let v := c.toNat
  if v < 0x80 then [v]
  else if v < 0x800 then
    [0xC0 ||| (v >>> 6), 0x80 ||| (v &&& 0x3F)]
  else if v < 0x10000 then
    [0xE0 ||| (v >>> 12), 0x80 ||| ((v >>> 6) &&& 0x3F), 0x80 ||| (v &&& 0x3F)]
  else
    [0xF0 ||| (v >>> 18), 0x80 ||| ((v >>> 12) &&& 0x3F),
     0x80 ||| ((v >>> 6) &&& 0x3F), 0x80 ||| (v &&& 0x3F)]

/-- UTF-8 bytes of a string. -/
def utf8 (s : String) : List Nat := s.data.flatMap utf8Char

/-- SHA-1 of the UTF-8 bytes of a string, as an integer. -/
def sha1OfString (s : String) : Nat := sha1 (utf8 s)

/-! ## The ChordNode operations (`node.py`) -/

namespace ChordNode

/-- `generate_id`: `int(hashlib.sha1(f"{ip}:{port}".encode()).hexdigest(), 16) % 2**160`. -/
def generate_id (ip : String) (port : Nat) : Nat :=
  sha1OfString (ip ++ ":" ++ toString port) % 2 ^ 160

/-- The hashed key used by `insert`, `query` and `delete`:
`int(hashlib.sha1(key.encode()).hexdigest(), 16) % 2**160`. -/
def hashKey (key : String) : Nat :=
  sha1OfString key % 2 ^ 160

/-- Remove every binding of `k` from the store (`del d[k]` semantics). -/
def storeErase (s : List (Nat × Option String)) (k : Nat) : List (Nat × Option String) :=
  s.filter (fun p => p.1 != k)

/-- Bind `k` to `v`, overwriting any existing binding (`d[k] = v`). -/
def storeSet (s : List (Nat × Option String)) (k : Nat) (v : Option String) :
    List (Nat × Option String) :=
  (k, v) :: storeErase s k

/-- `insert(key, value)`: hash the key, overwrite the store entry, report
success.  A `None` key raises AttributeError at `key.encode()`. -/
def insert (n : NodeState) (key value : Option String) :
    Except PyErr (NodeState × Response) :=
  match key with
  | none => .error .attributeError
  | some k =>
    let hashed_key := hashKey k
    .ok ({ n with data_store := storeSet n.data_store hashed_key value },
         { status := "success", message := some ("Inserted " ++ k ++ " -> " ++ optStr value) })

/-- `query(key)`: hash the key, return the stored value or a
`"Key not found"` error.  A `None` key raises AttributeError. -/
def query (n : NodeState) (key : Option String) : Except PyErr Response :=
  match key with
  | none => .error .attributeError
  | some k =>
    let hashed_key := hashKey k
    match n.data_store.lookup hashed_key with
    | some v => .ok { status := "success", value := some v }
    | none => .ok { status := "error", message := some "Key not found" }

/-- `delete(key)`: hash the key, remove the entry if present, else a
`"Key not found"` error.  A `None` key raises AttributeError. -/
def delete (n : NodeState) (key : Option String) :
    Except PyErr (NodeState × Response) :=
  match key with
  | none => .error .attributeError
  | some k =>
    let hashed_key := hashKey k
    if (n.data_store.lookup hashed_key).isSome then
      .ok ({ n with data_store := storeErase n.data_store hashed_key },
           { status := "success", message := some ("Deleted " ++ k) })
    else
      .ok (n, { status := "error", message := some "Key not found" })

/-- `update_predecessor(node_id, ip, port)`: unconditionally overwrite the
predecessor and report success. -/
def update_predecessor (n : NodeState) (node_id : Option Nat) (ip : String) (port : Nat) :
    NodeState × Response :=
  ({ n with predecessor := some { node_id := node_id, ip := ip, port := port } },
   { status := "success", message := some "Predecessor updated" })

/-- The forwarded lookup request built inside `find_successor`. -/
def findSuccReq (node_id : Nat) : Request :=
  { command := some "find_successor", node_id := some node_id }

/-- `find_successor(node_id)`: self-successor short-circuit, then the plain
(non-circular) interval test `self.node_id < node_id <= successor.node_id`,
else forward to the successor and return its answer verbatim.  An unset
successor attribute raises AttributeError; comparing a `None` target raises
TypeError. -/
def find_successor (n : NodeState) (send : SendFn) (node_id : Option Nat) :
    Except PyErr Response :=
  match n.successor with
  | none => .error .attributeError
  | some succ =>
    if succ.node_id = n.node_id then
      .ok { status := "success", successor := some succ }
    else
      match node_id with
      | none => .error .typeError
      | some t =>
        if n.node_id < t ∧ t ≤ succ.node_id then
          .ok { status := "success", successor := some succ }
        else
          .ok (send succ.ip succ.port (findSuccReq t))

/-- `process_request`: dispatch on the `command` field; the fallback branch
answers `Invalid command received: <command>`.  `update_predecessor` reads
`request["ip"]` / `request["port"]` by direct subscript (KeyError when
absent). -/
def process_request (n : NodeState) (send : SendFn) (req : Request) :
    Except PyErr (NodeState × Response) :=
  let command := req.command
  if command = some "insert" then
    insert n req.key req.value
  else if command = some "query" then
    (query n req.key).map (fun r => (n, r))
  else if command = some "delete" then
    delete n req.key
  else if command = some "find_successor" then
    (find_successor n send req.node_id).map (fun r => (n, r))
  else if command = some "update_predecessor" then
    match req.ip, req.port with
    | some i, some p => .ok (update_predecessor n req.node_id i p)
    | _, _ => .error .keyError
  else
    .ok (n, { status := "error",
              message := some ("Invalid command received: " ++ optStr command) })

/-- `handle_request`: decode one request, process it, send the one response;
a decode failure (`raw = none`) or a handler exception drops the connection
with no response and no state change. -/
def handle_request (n : NodeState) (send : SendFn) (raw : Option Request) :
    NodeState × Option Response :=
  match raw with
  | none => (n, none)
  | some req =>
    match process_request n send req with
    | .error _ => (n, none)
    | .ok (n2, resp) => (n2, some resp)

/-- `join(bootstrap_ip, bootstrap_port)`: ask the bootstrap peer for this
node's successor; on a success-status reply record the returned descriptor
(absent field ⇒ KeyError caught ⇒ nothing recorded), otherwise record
nothing.  The follow-up `update_predecessor` round-trip has no effect on
local state. -/
def join (self_id : Nat) (send : SendFn) (bip : String) (bport : Nat) :
    Option NodeDescriptor :=
  let resp := send bip bport { command := some "find_successor", node_id := some self_id }
  if resp.status = "success" then resp.successor else none

/-- `__init__(ip, port, bootstrap_ip, bootstrap_port)`: derive the id; a
bootstrap node seeds its successor as itself, a joining node takes whatever
`join` produced (possibly nothing). -/
def init (ip : String) (port : Nat) (bootstrap : Option (String × Nat)) (send : SendFn) :
    NodeState :=
  let nid := generate_id ip port
  match bootstrap with
  | none =>
    { node_id := nid, ip := ip, port := port, data_store := [],
      predecessor := none,
      successor := some { node_id := nid, ip := ip, port := port } }
  | some (bip, bport) =>
    { node_id := nid, ip := ip, port := port, data_store := [],
      predecessor := none,
      successor := join nid send bip bport }

end ChordNode

/-! ## Concrete sample states used by witnesses -/

/-- A node on a two-node ring: its successor is a different node. -/
def nodeA : NodeState :=
  { node_id := 10, ip := "1.1.1.1", port := 1, data_store := [],
    predecessor := none,
    successor := some { node_id := 20, ip := "2.2.2.2", port := 2 } }

/-- The descriptor stored as `nodeA`'s successor. -/
def succA : NodeDescriptor := { node_id := 20, ip := "2.2.2.2", port := 2 }

/-- A single-node ring whose predecessor has been announced. -/
def nodeSolo : NodeState :=
  { node_id := 7, ip := "9.9.9.9", port := 9, data_store := [],
    predecessor := some { node_id := some 3, ip := "3.3.3.3", port := 3 },
    successor := some { node_id := 7, ip := "9.9.9.9", port := 9 } }

/-- A peer that answers every request with a fixed success payload. -/
def sendFwd : SendFn := fun _ _ _ => { status := "forwarded" }

/-- A peer that refuses every connection (what `send_request` returns when
`connect` raises). -/
def sendRefused : SendFn :=
  fun _ _ _ => { status := "error", message := some "Connection refused" }

/-! ## Theorems: SHA-1 sanity and bounds -/

/-- Pinning the SHA-1 embedding to the FIPS 180 "abc" test vector. -/
theorem sha1OfString_abc :
    sha1OfString "abc" = 0xa9993e364706816aba3e25717850c26c9cd0d89d := by decide

/-- Pinning the SHA-1 embedding to the empty-string test vector. -/
theorem sha1OfString_empty :
    sha1OfString "" = 0xda39a3ee5e6b4b0d3255bfef95601890afd80709 := by decide

/-- `w32` truncates below `2^32`. -/
theorem w32_lt (x : Nat) : w32 x < 4294967296 :=
  Nat.mod_lt _ (by norm_num)

/-- All five digest words are 32-bit words. -/
def SHA1State.bounded (h : SHA1State) : Prop :=
  h.a < 4294967296 ∧ h.b < 4294967296 ∧ h.c < 4294967296 ∧
  h.d < 4294967296 ∧ h.e < 4294967296

/-- Block compression yields 32-bit digest words. -/
theorem processBlock_bounded (h : SHA1State) (block : List Nat) :
    (processBlock h block).bounded :=
  ⟨w32_lt _, w32_lt _, w32_lt _, w32_lt _, w32_lt _⟩

/-- The block loop preserves digest-word bounds. -/
theorem sha1Loop_bounded (fuel : Nat) (h : SHA1State) (msg : List Nat)
    (hb : h.bounded) : (sha1Loop fuel h msg).bounded := by
  induction fuel generalizing h msg with
  | zero => exact hb
  | succ k ih => exact ih _ _ (processBlock_bounded _ _)

/-- The SHA-1 digest of any byte list is below `2^160`, so Python's final
`% 2**160` never changes it. -/
theorem sha1_lt (msg : List Nat) : sha1 msg < 2 ^ 160 := by
  have hb : (sha1Digest msg).bounded :=
    sha1Loop_bounded _ _ _ (by refine ⟨?_, ?_, ?_, ?_, ?_⟩ <;> decide)
  obtain ⟨ha, hbb, hc, hd, he⟩ := hb
  show (sha1Digest msg).a * 2 ^ 128 + (sha1Digest msg).b * 2 ^ 96 +
      (sha1Digest msg).c * 2 ^ 64 + (sha1Digest msg).d * 2 ^ 32 +
      (sha1Digest msg).e < 2 ^ 160
  have h32 : (2 : Nat) ^ 32 = 4294967296 := by norm_num
  have h64 : (2 : Nat) ^ 64 = 18446744073709551616 := by norm_num
  have h96 : (2 : Nat) ^ 96 = 79228162514264337593543950336 := by norm_num
  have h128 : (2 : Nat) ^ 128 = 340282366920938463463374607431768211456 := by norm_num
  have h160 : (2 : Nat) ^ 160 =
      1461501637330902918203684832716283019655932542976 := by norm_num
  rw [h32, h64, h96, h128, h160]
  omega

/-! ## Helper lemmas on the store -/

/-- Erasing a key removes every binding of it. -/
theorem lookup_storeErase (s : List (Nat × Option String)) (k : Nat) :
    (ChordNode.storeErase s k).lookup k = none := by
  induction s with
  | nil => rfl
  | cons hd tl ih =>
    obtain ⟨a, b⟩ := hd
    by_cases h : a = k
    · subst h
      simpa [ChordNode.storeErase, List.filter_cons] using ih
    · have hb : (k == a) = false := by simp [Ne.symm h]
      simpa [ChordNode.storeErase, List.filter_cons, h, List.lookup, hb] using ih

/-- Setting a key makes lookup return the new value. -/
theorem lookup_storeSet (s : List (Nat × Option String)) (k : Nat) (v : Option String) :
    (ChordNode.storeSet s k v).lookup k = some v := by
  simp [ChordNode.storeSet, List.lookup]

/-- Inversion for `Except.map` returning `ok`. -/
theorem except_map_ok {ε α β : Type} (f : α → β) (e : Except ε α) (b : β)
    (h : e.map f = .ok b) : ∃ a, e = .ok a ∧ b = f a := by
  cases e with
  | error _ => simp [Except.map] at h
  | ok a => exact ⟨a, rfl, by simpa [Except.map] using h.symm⟩

/-! ## Claim theorems -/

/-- Claim C1: on a node whose successor is not itself, `find_successor t`
answers the stored successor with success status exactly when
`self_id < t ≤ successor.node_id` under the plain (non-circular) numeric
comparison, and otherwise forwards the same `find_successor` request to the
successor and returns that peer's answer unchanged. -/
theorem find_successor_routing (n : NodeState) (send : SendFn) (succ : NodeDescriptor)
    (t : Nat) (hs : n.successor = some succ) (hne : succ.node_id ≠ n.node_id) :
    ChordNode.find_successor n send (some t) =
      if n.node_id < t ∧ t ≤ succ.node_id then
        .ok { status := "success", successor := some succ }
      else
        .ok (send succ.ip succ.port (ChordNode.findSuccReq t)) := by
  unfold ChordNode.find_successor
  rw [hs]
  simp [hne]

/-- Witness for C1 on a concrete two-node state, target inside the interval. -/
theorem find_successor_routing_witness :
    ChordNode.find_successor nodeA sendFwd (some 15) =
      .ok { status := "success", successor := some succA } := by
  rw [find_successor_routing nodeA sendFwd succA 15 rfl (by decide)]
  simp [nodeA, succA]

/-- Claim C2: a node constructed without a bootstrap address seeds its
successor as its own descriptor (so `successor.node_id = self_id`), and any
node whose successor carries its own id answers every `find_successor`
query, even one with a missing target, with that descriptor and success
status. -/
theorem single_node_ring :
    (∀ (ip : String) (port : Nat) (send : SendFn),
      (ChordNode.init ip port none send).successor =
        some { node_id := ChordNode.generate_id ip port, ip := ip, port := port } ∧
      (ChordNode.init ip port none send).node_id = ChordNode.generate_id ip port) ∧
    (∀ (n : NodeState) (send : SendFn) (succ : NodeDescriptor) (x : Option Nat),
      n.successor = some succ → succ.node_id = n.node_id →
      ChordNode.find_successor n send x =
        .ok { status := "success", successor := some succ }) := by
  constructor
  · intro ip port send
    exact ⟨rfl, rfl⟩
  · intro n send succ x hs heq
    unfold ChordNode.find_successor
    rw [hs]
    simp [heq]

/-- Witness for C2 on a concrete single-node ring. -/
theorem single_node_ring_witness :
    ChordNode.find_successor nodeSolo sendFwd (some 1000) =
      .ok { status := "success",
            successor := some { node_id := 7, ip := "9.9.9.9", port := 9 } } :=
  single_node_ring.2 nodeSolo sendFwd { node_id := 7, ip := "9.9.9.9", port := 9 }
    (some 1000) rfl rfl

/-- Claim C3: `insert k v` always succeeds, overwrites the binding of the
hashed key, and an immediately following `query k` on the resulting state
returns `v` with success status. -/
theorem insert_query_roundtrip (n : NodeState) (k v : String) :
    ChordNode.insert n (some k) (some v) =
      .ok ({ n with data_store :=
               ChordNode.storeSet n.data_store (ChordNode.hashKey k) (some v) },
           { status := "success",
             message := some ("Inserted " ++ k ++ " -> " ++ v) }) ∧
    ChordNode.query
      { n with data_store :=
          ChordNode.storeSet n.data_store (ChordNode.hashKey k) (some v) }
      (some k) = .ok { status := "success", value := some (some v) } := by
  constructor
  · rfl
  · simp [ChordNode.query, lookup_storeSet]

/-- Claim C4: `delete k` followed by `query k` reports `"Key not found"`;
`delete` on an absent hashed key returns the `"Key not found"` error without
touching the state, and on a present key removes the entry and succeeds. -/
theorem delete_query_not_found :
    (∀ (n : NodeState) (k : String) (res : NodeState × Response),
      ChordNode.delete n (some k) = .ok res →
      ChordNode.query res.1 (some k) =
        .ok { status := "error", message := some "Key not found" }) ∧
    (∀ (n : NodeState) (k : String),
      n.data_store.lookup (ChordNode.hashKey k) = none →
      ChordNode.delete n (some k) =
        .ok (n, { status := "error", message := some "Key not found" })) ∧
    (∀ (n : NodeState) (k : String) (v : Option String),
      n.data_store.lookup (ChordNode.hashKey k) = some v →
      ChordNode.delete n (some k) =
        .ok ({ n with data_store :=
                 ChordNode.storeErase n.data_store (ChordNode.hashKey k) },
             { status := "success", message := some ("Deleted " ++ k) })) := by
  refine ⟨?_, ?_, ?_⟩
  · intro n k res h
    cases hE : n.data_store.lookup (ChordNode.hashKey k) with
    | some v =>
      simp [ChordNode.delete, hE] at h
      rw [← h]
      simp [ChordNode.query, lookup_storeErase]
    | none =>
      simp [ChordNode.delete, hE] at h
      rw [← h]
      simp [ChordNode.query, hE]
  · intro n k hE
    simp [ChordNode.delete, hE]
  · intro n k v hE
    simp [ChordNode.delete, hE]

/-- Witness for C4: deleting an absent key on a concrete empty-store node. -/
theorem delete_query_not_found_witness :
    ChordNode.delete nodeA (some "song") =
      .ok (nodeA, { status := "error", message := some "Key not found" }) :=
  delete_query_not_found.2.1 nodeA "song" rfl

/-- Claim C5: `generate_id` is the SHA-1 digest of the UTF-8 bytes of
`"ip:port"` read as an unsigned integer and reduced mod `2^160` (a no-op,
since SHA-1 digests are 160-bit), and `insert`, `query` and `delete` apply
the same SHA-1-mod-`2^160` reduction to the raw key string; as Lean
functions these are all deterministic. -/
theorem generate_id_sha1 :
    (∀ (ip : String) (port : Nat),
      ChordNode.generate_id ip port =
        sha1 (utf8 (ip ++ ":" ++ toString port)) % 2 ^ 160 ∧
      ChordNode.generate_id ip port = sha1 (utf8 (ip ++ ":" ++ toString port))) ∧
    (∀ key : String,
      ChordNode.hashKey key = sha1 (utf8 key) % 2 ^ 160 ∧
      ChordNode.hashKey key = sha1 (utf8 key)) ∧
    (∀ (n : NodeState) (k : String) (v : Option String),
      ChordNode.insert n (some k) v =
        .ok ({ n with data_store :=
                 ChordNode.storeSet n.data_store (ChordNode.hashKey k) v },
             { status := "success",
               message := some ("Inserted " ++ k ++ " -> " ++ optStr v) })) ∧
    (∀ (n : NodeState) (k : String),
      ChordNode.query n (some k) =
        .ok (match n.data_store.lookup (ChordNode.hashKey k) with
             | some v => { status := "success", value := some v }
             | none => { status := "error", message := some "Key not found" })) ∧
    (∀ (n : NodeState) (k : String),
      (ChordNode.delete n (some k)).map (fun r => r.1.data_store) =
        .ok (if (n.data_store.lookup (ChordNode.hashKey k)).isSome then
               ChordNode.storeErase n.data_store (ChordNode.hashKey k)
             else n.data_store)) := by
  refine ⟨?_, ?_, ?_, ?_, ?_⟩
  · intro ip port
    exact ⟨rfl, Nat.mod_eq_of_lt (sha1_lt _)⟩
  · intro key
    exact ⟨rfl, Nat.mod_eq_of_lt (sha1_lt _)⟩
  · intro n k v
    rfl
  · intro n k
    cases hE : n.data_store.lookup (ChordNode.hashKey k) with
    | some v => simp [ChordNode.query, hE]
    | none => simp [ChordNode.query, hE]
  · intro n k
    cases hE : n.data_store.lookup (ChordNode.hashKey k) with
    | some v => simp [ChordNode.delete, hE, Except.map]
    | none => simp [ChordNode.delete, hE, Except.map]

/-- Frame facts about one dispatched request: identity fields and the
successor never change; the predecessor changes only on
`update_predecessor` (and then to a non-`none` value with the store left
alone); `query`, `find_successor` and the invalid-command fallback leave
the whole state unchanged. -/
theorem process_request_frame (n : NodeState) (send : SendFn) (req : Request)
    (res : NodeState × Response)
    (h : ChordNode.process_request n send req = .ok res) :
    res.1.node_id = n.node_id ∧ res.1.ip = n.ip ∧ res.1.port = n.port ∧
    res.1.successor = n.successor ∧
    (req.command ≠ some "update_predecessor" → res.1.predecessor = n.predecessor) ∧
    (req.command = some "update_predecessor" →
      res.1.data_store = n.data_store ∧ res.1.predecessor ≠ none) ∧
    ((req.command = some "query" ∨ req.command = some "find_successor" ∨
      (req.command ≠ some "insert" ∧ req.command ≠ some "query" ∧
       req.command ≠ some "delete" ∧ req.command ≠ some "find_successor" ∧
       req.command ≠ some "update_predecessor")) → res.1 = n) := by
  by_cases h1 : req.command = some "insert"
  · simp [ChordNode.process_request, h1] at h
    cases hk : req.key with
    | none =>
      rw [hk] at h
      exact Except.noConfusion h
    | some k =>
      rw [hk] at h
      simp [ChordNode.insert] at h
      subst h
      refine ⟨rfl, rfl, rfl, rfl, fun _ => rfl,
        fun hu => absurd (h1.symm.trans hu) (by decide), fun hc => ?_⟩
      rcases hc with hc | hc | hc
      · exact absurd (h1.symm.trans hc) (by decide)
      · exact absurd (h1.symm.trans hc) (by decide)
      · exact absurd h1 hc.1
  by_cases h2 : req.command = some "query"
  · simp [ChordNode.process_request, h1, h2] at h
    obtain ⟨r, _, hres⟩ := except_map_ok _ _ _ h
    subst hres
    exact ⟨rfl, rfl, rfl, rfl, fun _ => rfl,
      fun hu => absurd (h2.symm.trans hu) (by decide), fun _ => rfl⟩
  by_cases h3 : req.command = some "delete"
  · simp [ChordNode.process_request, h1, h2, h3] at h
    cases hk : req.key with
    | none =>
      rw [hk] at h
      exact Except.noConfusion h
    | some k =>
      rw [hk] at h
      cases hE : n.data_store.lookup (ChordNode.hashKey k) with
      | some v =>
        simp [ChordNode.delete, hE] at h
        subst h
        refine ⟨rfl, rfl, rfl, rfl, fun _ => rfl,
          fun hu => absurd (h3.symm.trans hu) (by decide), fun hc => ?_⟩
        rcases hc with hc | hc | hc
        · exact absurd (h3.symm.trans hc) (by decide)
        · exact absurd (h3.symm.trans hc) (by decide)
        · exact absurd h3 hc.2.2.1
      | none =>
        simp [ChordNode.delete, hE] at h
        subst h
        exact ⟨rfl, rfl, rfl, rfl, fun _ => rfl,
          fun hu => absurd (h3.symm.trans hu) (by decide), fun _ => rfl⟩
  by_cases h4 : req.command = some "find_successor"
  · simp [ChordNode.process_request, h1, h2, h3, h4] at h
    obtain ⟨r, _, hres⟩ := except_map_ok _ _ _ h
    subst hres
    exact ⟨rfl, rfl, rfl, rfl, fun _ => rfl,
      fun hu => absurd (h4.symm.trans hu) (by decide), fun _ => rfl⟩
  by_cases h5 : req.command = some "update_predecessor"
  · simp [ChordNode.process_request, h1, h2, h3, h4, h5] at h
    cases hI : req.ip with
    | none =>
      rw [hI] at h
      cases hP : req.port with
      | none => rw [hP] at h; exact Except.noConfusion h
      | some p => rw [hP] at h; exact Except.noConfusion h
    | some i =>
      rw [hI] at h
      cases hP : req.port with
      | none => rw [hP] at h; exact Except.noConfusion h
      | some p =>
        rw [hP] at h
        simp [ChordNode.update_predecessor] at h
        subst h
        refine ⟨rfl, rfl, rfl, rfl, fun hnu => absurd h5 hnu,
          fun _ => ⟨rfl, by simp⟩, fun hc => ?_⟩
        rcases hc with hc | hc | hc
        · exact absurd (h5.symm.trans hc) (by decide)
        · exact absurd (h5.symm.trans hc) (by decide)
        · exact absurd h5 hc.2.2.2.2
  · simp [ChordNode.process_request, h1, h2, h3, h4, h5] at h
    subst h
    exact ⟨rfl, rfl, rfl, rfl, fun _ => rfl, fun hu => absurd hu h5, fun _ => rfl⟩

/-- Claim C6 counterexample: a node constructed with a bootstrap address
whose `find_successor` round-trip fails ends construction with no
successor descriptor at all. -/
theorem join_failure_no_successor :
    (ChordNode.init "127.0.0.1" 5001 (some ("127.0.0.1", 5000)) sendRefused).successor =
      none := rfl

/-- Claim C6 (amended): after construction a bootstrap node holds its own
descriptor as successor, and a joining node holds exactly the `successor`
field of the bootstrap's reply when that reply has success status — in
particular none at all when the first join step returns an error status
(the update_predecessor step never touches the local successor). -/
theorem construction_successor :
    (∀ (ip : String) (port : Nat) (send : SendFn),
      (ChordNode.init ip port none send).successor =
        some { node_id := ChordNode.generate_id ip port, ip := ip, port := port }) ∧
    (∀ (ip bip : String) (port bport : Nat) (send : SendFn),
      (ChordNode.init ip port (some (bip, bport)) send).successor =
        ChordNode.join (ChordNode.generate_id ip port) send bip bport) ∧
    (∀ (self_id : Nat) (send : SendFn) (bip : String) (bport : Nat),
      (send bip bport { command := some "find_successor",
                        node_id := some self_id }).status ≠ "success" →
      ChordNode.join self_id send bip bport = none) ∧
    (∀ (self_id : Nat) (send : SendFn) (bip : String) (bport : Nat),
      (send bip bport { command := some "find_successor",
                        node_id := some self_id }).status = "success" →
      ChordNode.join self_id send bip bport =
        (send bip bport { command := some "find_successor",
                          node_id := some self_id }).successor) := by
  refine ⟨fun _ _ _ => rfl, fun _ _ _ _ _ => rfl, ?_, ?_⟩
  · intro self_id send bip bport hst
    simp [ChordNode.join, hst]
  · intro self_id send bip bport hst
    simp [ChordNode.join, hst]

/-- Witness for amended C6: a concrete joining node facing a refused
connection records no successor. -/
theorem construction_successor_witness :
    ChordNode.join 5 sendRefused "127.0.0.1" 5000 = none :=
  construction_successor.2.2.1 5 sendRefused "127.0.0.1" 5000 (by decide)

/-- Claim C7: `update_predecessor` unconditionally overwrites the
predecessor with the request's descriptor and always answers success; no
other dispatched command changes the predecessor, and a set predecessor is
never cleared. -/
theorem update_predecessor_last_writer :
    (∀ (n : NodeState) (nid : Option Nat) (i : String) (p : Nat),
      ChordNode.update_predecessor n nid i p =
        ({ n with predecessor := some { node_id := nid, ip := i, port := p } },
         { status := "success", message := some "Predecessor updated" })) ∧
    (∀ (n : NodeState) (send : SendFn) (req : Request) (res : NodeState × Response),
      ChordNode.process_request n send req = .ok res →
      req.command ≠ some "update_predecessor" →
      res.1.predecessor = n.predecessor) ∧
    (∀ (n : NodeState) (send : SendFn) (req : Request) (res : NodeState × Response),
      ChordNode.process_request n send req = .ok res →
      n.predecessor ≠ none → res.1.predecessor ≠ none) := by
  refine ⟨fun _ _ _ _ => rfl, ?_, ?_⟩
  · intro n send req res h hne
    exact (process_request_frame n send req res h).2.2.2.2.1 hne
  · intro n send req res h hd
    by_cases hu : req.command = some "update_predecessor"
    · exact ((process_request_frame n send req res h).2.2.2.2.2.1 hu).2
    · rw [(process_request_frame n send req res h).2.2.2.2.1 hu]
      exact hd

/-- Witness for C7: a concrete `query` leaves `nodeSolo`'s predecessor
untouched. -/
theorem update_predecessor_last_writer_witness :
    (nodeSolo, ({ status := "error", message := some "Key not found" } : Response)).1.predecessor =
      nodeSolo.predecessor :=
  update_predecessor_last_writer.2.1 nodeSolo sendFwd
    { command := some "query", key := some "x" }
    (nodeSolo, { status := "error", message := some "Key not found" }) rfl (by decide)

/-- Claim C8: a request whose command is absent or unrecognized is answered
by the dispatcher's fallback branch with the structured
`Invalid command received: <command>` error, and the handler sends that
response rather than crashing. -/
theorem invalid_command_dispatch (n : NodeState) (send : SendFn) (req : Request)
    (h1 : req.command ≠ some "insert") (h2 : req.command ≠ some "query")
    (h3 : req.command ≠ some "delete") (h4 : req.command ≠ some "find_successor")
    (h5 : req.command ≠ some "update_predecessor") :
    ChordNode.process_request n send req =
      .ok (n, { status := "error",
                message := some ("Invalid command received: " ++ optStr req.command) }) ∧
    ChordNode.handle_request n send (some req) =
      (n, some { status := "error",
                 message := some ("Invalid command received: " ++ optStr req.command) }) := by
  have hp : ChordNode.process_request n send req =
      .ok (n, { status := "error",
                message := some ("Invalid command received: " ++ optStr req.command) }) := by
    simp [ChordNode.process_request, h1, h2, h3, h4, h5]
  exact ⟨hp, by simp [ChordNode.handle_request, hp]⟩

/-- Witness for C8: the concrete command `"bogus"` is answered by the
fallback error response. -/
theorem invalid_command_dispatch_witness :
    ChordNode.process_request nodeA sendFwd { command := some "bogus" } =
      .ok (nodeA, { status := "error",
                    message := some ("Invalid command received: " ++ optStr (some "bogus")) }) ∧
    ChordNode.handle_request nodeA sendFwd (some { command := some "bogus" }) =
      (nodeA, some { status := "error",
                     message := some ("Invalid command received: " ++ optStr (some "bogus")) }) :=
  invalid_command_dispatch nodeA sendFwd { command := some "bogus" }
    (by decide) (by decide) (by decide) (by decide) (by decide)

/-- Claim C9: store commands (`insert`/`query`/`delete`) never change the
ring pointers or the node id; `update_predecessor` never changes the store
or the successor; `query` and `find_successor` change no local state at
all. -/
theorem store_ring_noninterference :
    (∀ (n : NodeState) (send : SendFn) (req : Request) (res : NodeState × Response),
      ChordNode.process_request n send req = .ok res →
      (req.command = some "insert" ∨ req.command = some "query" ∨
       req.command = some "delete") →
      res.1.successor = n.successor ∧ res.1.predecessor = n.predecessor ∧
      res.1.node_id = n.node_id) ∧
    (∀ (n : NodeState) (send : SendFn) (req : Request) (res : NodeState × Response),
      ChordNode.process_request n send req = .ok res →
      req.command = some "update_predecessor" →
      res.1.data_store = n.data_store ∧ res.1.successor = n.successor) ∧
    (∀ (n : NodeState) (send : SendFn) (req : Request) (res : NodeState × Response),
      ChordNode.process_request n send req = .ok res →
      (req.command = some "query" ∨ req.command = some "find_successor") →
      res.1 = n) := by
  refine ⟨?_, ?_, ?_⟩
  · intro n send req res h hc
    have f := process_request_frame n send req res h
    have hne : req.command ≠ some "update_predecessor" := by
      rcases hc with hc | hc | hc <;> rw [hc] <;> decide
    exact ⟨f.2.2.2.1, f.2.2.2.2.1 hne, f.1⟩
  · intro n send req res h hu
    have f := process_request_frame n send req res h
    exact ⟨(f.2.2.2.2.2.1 hu).1, f.2.2.2.1⟩
  · intro n send req res h hc
    have f := process_request_frame n send req res h
    rcases hc with hc | hc
    · exact f.2.2.2.2.2.2 (Or.inl hc)
    · exact f.2.2.2.2.2.2 (Or.inr (Or.inl hc))

/-- Witness for C9: a concrete `insert` leaves `nodeA`'s ring pointers and
id unchanged. -/
theorem store_ring_noninterference_witness :
    ({ nodeA with data_store :=
         ChordNode.storeSet nodeA.data_store (ChordNode.hashKey "a") (some "b") },
      ({ status := "success",
         message := some ("Inserted " ++ "a" ++ " -> " ++ "b") } : Response)).1.successor =
        nodeA.successor ∧
    ({ nodeA with data_store :=
         ChordNode.storeSet nodeA.data_store (ChordNode.hashKey "a") (some "b") },
      ({ status := "success",
         message := some ("Inserted " ++ "a" ++ " -> " ++ "b") } : Response)).1.predecessor =
        nodeA.predecessor ∧
    ({ nodeA with data_store :=
         ChordNode.storeSet nodeA.data_store (ChordNode.hashKey "a") (some "b") },
      ({ status := "success",
         message := some ("Inserted " ++ "a" ++ " -> " ++ "b") } : Response)).1.node_id =
        nodeA.node_id :=
  store_ring_noninterference.1 nodeA sendFwd
    { command := some "insert", key := some "a", value := some "b" }
    ({ nodeA with data_store :=
         ChordNode.storeSet nodeA.data_store (ChordNode.hashKey "a") (some "b") },
      { status := "success", message := some ("Inserted " ++ "a" ++ " -> " ++ "b") })
    rfl (Or.inl rfl)

/-- Claim C10: a well-formed request whose command is a store operation but
whose `key` field is absent makes the handler raise (AttributeError), and an
`update_predecessor` request lacking `ip` or `port` raises KeyError; in both
cases the connection is closed with no response and no state change — the
invalid-command branch is not taken. -/
theorem missing_field_drops_connection :
    (∀ (n : NodeState) (send : SendFn) (req : Request),
      (req.command = some "insert" ∨ req.command = some "query" ∨
       req.command = some "delete") →
      req.key = none →
      ChordNode.process_request n send req = .error .attributeError ∧
      ChordNode.handle_request n send (some req) = (n, none)) ∧
    (∀ (n : NodeState) (send : SendFn) (req : Request),
      req.command = some "update_predecessor" →
      (req.ip = none ∨ req.port = none) →
      ChordNode.process_request n send req = .error .keyError ∧
      ChordNode.handle_request n send (some req) = (n, none)) := by
  constructor
  · intro n send req hc hk
    have hp : ChordNode.process_request n send req = .error .attributeError := by
      rcases hc with hc | hc | hc <;>
        simp [ChordNode.process_request, hc, hk, ChordNode.insert, ChordNode.query,
              ChordNode.delete, Except.map]
    exact ⟨hp, by simp [ChordNode.handle_request, hp]⟩
  · intro n send req hc hip
    have hp : ChordNode.process_request n send req = .error .keyError := by
      rcases hip with hip | hip
      · simp [ChordNode.process_request, hc, hip]
      · cases hI : req.ip with
        | none => simp [ChordNode.process_request, hc, hI]
        | some i => simp [ChordNode.process_request, hc, hI, hip]
    exact ⟨hp, by simp [ChordNode.handle_request, hp]⟩

/-- Witness for C10: a concrete keyless `insert` request raises and the
connection is dropped with no response. -/
theorem missing_field_drops_connection_witness :
    ChordNode.process_request nodeA sendFwd { command := some "insert", value := some "x" } =
      .error .attributeError ∧
    ChordNode.handle_request nodeA sendFwd
      (some { command := some "insert", value := some "x" }) = (nodeA, none) :=
  missing_field_drops_connection.1 nodeA sendFwd
    { command := some "insert", value := some "x" } (Or.inl rfl) rfl
